import Mathlib

/-!
Shallow embedding of `dblog.py` (PyLog2MongoDB): a `logging.Formatter`
subclass `MongoFormatter` that turns a `LogRecord` into a dictionary, and a
`logging.Handler` subclass `MongoHandler` that connects to MongoDB via
pymongo and inserts the formatted documents.

Modelling conventions:

* Python dictionaries with string keys are association lists
  (`Doc := List (String × Value)`); `setKey` mirrors `d[k] = v`
  (overwrite-in-place-or-append, which is Python dict semantics).
* The pymongo driver is an oracle (`Env`): each driver call is a field of
  `Env` returning `Except PyExc _`, so a given environment fixes which calls
  succeed and which raise which exception.
* Python exceptions are the inductive `PyExc`; `OperationFailure` is a
  subclass of `PyMongoError`, which `isPyMongoError` records.
* Fallible Python code is `Except PyExc _`; an uncaught exception is
  `.error e`.
-/

/-- A BSON-representable value, as produced by `MongoFormatter.format`. -/
inductive Value where
  | vTimestamp (sec : Nat) (ord : Nat)
  | vStr (s : String)
  | vInt (n : Int)
  | vDoc (fields : List (String × Value))

/-- A document: Python dict with string keys, as an association list in
insertion order. -/
abbrev Doc := List (String × Value)

/-- Python dict assignment `d[k] = v`: overwrite the existing entry in place, or
append a new one. -/
def setKey : Doc → String → Value → Doc
  | [], k, v => [(k, v)]
  | (k', v') :: rest, k, v =>
      if k' = k then (k', v) :: rest else (k', v') :: setKey rest k v

/-- Python dict lookup `d.get(k)`. -/
def Doc.lookupKey (d : Doc) (k : String) : Option Value :=
  (d.find? (fun p => decide (p.1 = k))).map Prod.snd

/-- The key list of a document. -/
def Doc.keys (d : Doc) : List String := d.map Prod.fst

/-- Exception info `sys.exc_info()` as a record carries: the exception type's name,
`str()` of the exception value, and the formatted traceback frame lines
(each line ending in a newline), empty when the traceback object is None. -/
structure ExcInfo where
  typeName : String
  valueStr : String
  tbFrames : List String
deriving DecidableEq, Repr

/-- The final line of a formatted traceback: `"Type: value"`, or just
`"Type"` when `str(value)` is empty (CPython `traceback` behavior). -/
def excLine (ei : ExcInfo) : String :=
  if ei.valueStr = "" then ei.typeName else ei.typeName ++ ": " ++ ei.valueStr

/-- Output of `traceback.print_exception`: the `Traceback (most recent call
last):` header and frames when a traceback is present, then the exception
line, ending with a newline. -/
def tracebackText (ei : ExcInfo) : String :=
  (if ei.tbFrames.isEmpty then ""
   else "Traceback (most recent call last):\n" ++ String.join ei.tbFrames)
  ++ excLine ei ++ "\n"

/-- The strip `if s[-1:] == "\n": s = s[:-1]` from `logging.Formatter.formatException`. -/
def stripTrailingNewline (s : String) : String :=
  match s.data.getLast? with
  | some c => if c = '\n' then ⟨s.data.dropLast⟩ else s
  | none => s

/-- Model of `logging.Formatter.formatException`: print the exception to a string
buffer, then strip one trailing newline. -/
def formatException (ei : ExcInfo) : String :=
  stripTrailingNewline (tracebackText ei)

/-- The attribute set of a freshly constructed `logging.LogRecord`
(`logging.LogRecord('', '', '', '', '', '', '', '').__dict__.keys()`):
`MongoFormatter.DEFAULT_PROPERTIES` in `dblog.py` line 38. -/
def DEFAULT_PROPERTIES : List String :=
  ["name", "msg", "args", "levelname", "levelno", "pathname", "filename",
   "module", "exc_info", "exc_text", "lineno", "funcName", "created",
   "msecs", "relativeCreated", "thread", "threadName", "processName",
   "process"]

/-- A `logging.LogRecord` as `MongoFormatter.format` reads it: the standard
attributes it consumes, plus the open-ended extra fields the caller attached
(`extra=` adds attributes on top of the standard ones; the logging framework
rejects an extra whose key is already a record attribute). `createdSec` and
`msecs` are the truncated integers `int(record.created)`, `int(record.msecs)`,
and `message` is the rendered `record.getMessage()`. -/
structure LogRecord where
  createdSec : Nat
  msecs : Nat
  levelname : String
  thread : Int
  threadName : String
  message : String
  name : String
  pathname : String
  module : String
  funcName : String
  lineno : Nat
  exc_info : Option ExcInfo
  extras : List (String × Value)

/-- The `record.__dict__` key list: all standard attributes plus the extras. -/
def LogRecord.dictKeys (r : LogRecord) : List String :=
  DEFAULT_PROPERTIES ++ r.extras.map Prod.fst

/-- The value `record.__dict__[key]` for an extension key. -/
def LogRecord.dictValue (r : LogRecord) (k : String) : Value :=
  ((r.extras.find? (fun p => decide (p.1 = k))).map Prod.snd).getD (.vStr "")

/-- The ten-field standard document literal of `MongoFormatter.format`
(dblog.py lines 43-54). -/
def standardDoc (r : LogRecord) : Doc :=
  [("timestamp", .vTimestamp r.createdSec r.msecs),
   ("level", .vStr r.levelname),
   ("thread", .vInt r.thread),
   ("threadName", .vStr r.threadName),
   ("message", .vStr r.message),
   ("loggerName", .vStr r.name),
   ("fileName", .vStr r.pathname),
   ("module", .vStr r.module),
   ("method", .vStr r.funcName),
   ("lineNumber", .vInt r.lineno)]

/-- The nested `exception` sub-document (dblog.py lines 57-63). -/
def exceptionValue (ei : ExcInfo) : Value :=
  .vDoc [("message", .vStr ei.valueStr),
         ("code", .vInt 0),
         ("stackTrace", .vStr (formatException ei))]

/-- Model of `MongoFormatter.format` (dblog.py lines 40-70): the ten-field standard
document, decorated with the `exception` sub-document when `exc_info` is
present, then with every `record.__dict__` key outside `DEFAULT_PROPERTIES`
copied in at top level, guarded by the attribute-count comparison.  Python
iterates the set difference in unspecified order; we determinize it as
first-occurrence order, which fixes the same key-value mapping. -/
def MongoFormatter.format (r : LogRecord) : Doc :=
  let document : Doc := standardDoc r
  let document : Doc :=
    match r.exc_info with
    | some ei => setKey document "exception" (exceptionValue ei)
    | none => document
  if DEFAULT_PROPERTIES.length ≠ r.dictKeys.length then
    let contextual_extra :=
      (r.dictKeys.filter (fun k => decide (k ∉ DEFAULT_PROPERTIES))).dedup
    if contextual_extra ≠ [] then
      contextual_extra.foldl (fun d k => setKey d k (r.dictValue k)) document
    else document
  else document

/-- The ten fixed keys of the standard document, in insertion order. -/
def fixedDocKeys : List String :=
  ["timestamp", "level", "thread", "threadName", "message", "loggerName",
   "fileName", "module", "method", "lineNumber"]

/-- Python exceptions relevant to `dblog.py`.  In pymongo,
`OperationFailure` is a subclass of `PyMongoError`. -/
inductive PyExc where
  | pyMongoError
  | operationFailure
  | typeError
  | otherError
deriving DecidableEq, Repr

/-- The test `isinstance(e, PyMongoError)`: `OperationFailure` is a subclass. -/
def isPyMongoError : PyExc → Bool
  | .pyMongoError => true
  | .operationFailure => true
  | _ => false

/-- An opaque pymongo client handle. -/
structure Client where
  id : Nat
deriving DecidableEq, Repr

/-- A database handle: `connection[database_name]`. -/
structure DB where
  client : Client
  name : String
deriving DecidableEq, Repr

/-- A collection handle.  `cappedParams` records the `(max, size)` creation
parameters when the handle came from a capped `Collection(...)` creation;
opening by name (`db[collection_name]`) passes no such parameters. -/
structure Coll where
  db : DB
  name : String
  cappedParams : Option (Nat × Nat)
deriving DecidableEq, Repr

/-- The `**options` keyword bag forwarded to `pymongo.MongoClient`. -/
abbrev Options := List (String × String)

/-- The pymongo driver and server as an oracle: each field is one driver
call, returning `.error e` when that call raises `e`. -/
structure Env where
  urlClient : String → Except PyExc Client
  hostClient : String → Nat → Options → Except PyExc Client
  authenticate : DB → String → String → Except PyExc Bool
  createCapped : DB → String → Nat → Nat → Except PyExc Coll
  insertDoc : Coll → Doc → Except PyExc Unit

/-- The handler's formatter slot: the fresh `MongoFormatter()` the
constructor installs, or some other formatter object. -/
inductive HandlerFormatter where
  | mongoFormatter
  | custom (fmt : LogRecord → Doc)

/-- Dispatch of `handler.format(record)`: it goes to the installed formatter. -/
def HandlerFormatter.formatRecord : HandlerFormatter → LogRecord → Doc
  | .mongoFormatter, r => MongoFormatter.format r
  | .custom fmt, r => fmt r

/-- The mutable state of a `MongoHandler` instance.  `connnection` (sic) is
the attribute created by the misspelled assignment on dblog.py line 102;
like any Python attribute it does not exist (here: is `none`) until that
assignment runs. -/
structure MongoHandler where
  level : Int
  url : Option String
  host : String
  port : Nat
  database_name : String
  collection_name : String
  username : Option String
  password : Option String
  fail_silently : Bool
  connection : Option Client
  connnection : Option Client
  db : Option DB
  collection : Option Coll
  authenticated : Bool
  formatter : HandlerFormatter
  capped : Bool
  capped_max : Nat
  capped_size : Nat
  options : Options

/-- The attribute assignments of `MongoHandler.__init__` (dblog.py lines
77-94), before the final `self._connect()` call.  Note line 90: the
`formatter` argument is ignored and `self.formatter = MongoFormatter()`. -/
def MongoHandler.initState (level : Int) (url : Option String) (host : String)
    (port : Nat) (database_name : String) (collection : String)
    (username password : Option String) (fail_silently : Bool)
    (formatter : Option HandlerFormatter) (capped : Bool)
    (capped_max capped_size : Nat) (options : Options) : MongoHandler :=
  { level := level
    url := url
    host := host
    port := port
    database_name := database_name
    collection_name := collection
    username := username
    password := password
    fail_silently := fail_silently
    connection := none
    connnection := none
    db := none
    collection := none
    authenticated := false
    formatter := .mongoFormatter
    capped := capped
    capped_max := capped_max
    capped_size := capped_size
    options := options }

/-- The body of the `try:` block in `_connect` (dblog.py lines 101-104):
`self.connnection = pymongo.MongoClient(self.url)` when a URL is set — the
misspelled attribute — else
`self.connection = pymongo.MongoClient(host=self.host, port=self.port,
**self.options)`. -/
def MongoHandler.connectStep (env : Env) (h : MongoHandler) :
    Except PyExc MongoHandler :=
  match h.url with
  | some u => (env.urlClient u).map (fun c => { h with connnection := some c })
  | none =>
      (env.hostClient h.host h.port h.options).map
        (fun c => { h with connection := some c })

/-- Model of `MongoHandler._connect` (dblog.py lines 97-123): the guarded client
creation, then `self.db = self.connection[self.database_name]` (a
`TypeError` when `self.connection` is `None`), optional authentication, and
collection resolution with the capped-creation fallback. -/
def MongoHandler.connect (env : Env) (h : MongoHandler) :
    Except PyExc MongoHandler :=
  match h.connectStep env with
  | .error e =>
      if isPyMongoError e then
        if h.fail_silently then .ok h else .error e
      else .error e
  | .ok h1 =>
      match h1.connection with
      | none => .error .typeError
      | some conn =>
        let theDb : DB := ⟨conn, h1.database_name⟩
        let h2 := { h1 with db := some theDb }
        let authStep : Except PyExc MongoHandler :=
          match h2.username, h2.password with
          | some u, some p =>
              (env.authenticate theDb u p).map
                (fun b => { h2 with authenticated := b })
          | _, _ => .ok h2
        match authStep with
        | .error e => .error e
        | .ok h3 =>
          if h3.capped then
            match env.createCapped theDb h3.collection_name h3.capped_max
                h3.capped_size with
            | .ok c => .ok { h3 with collection := some c }
            | .error .operationFailure =>
                .ok { h3 with
                      collection := some ⟨theDb, h3.collection_name, none⟩ }
            | .error e => .error e
          else
            .ok { h3 with collection := some ⟨theDb, h3.collection_name, none⟩ }

/-- Model of `MongoHandler.__init__` (dblog.py lines 75-95): set the attributes,
then `self._connect()`.  An exception escaping `_connect` escapes the
constructor. -/
def MongoHandler.construct (env : Env) (level : Int) (url : Option String)
    (host : String) (port : Nat) (database_name : String)
    (collection : String) (username password : Option String)
    (fail_silently : Bool) (formatter : Option HandlerFormatter)
    (capped : Bool) (capped_max capped_size : Nat) (options : Options) :
    Except PyExc MongoHandler :=
  MongoHandler.connect env
    (MongoHandler.initState level url host port database_name collection
      username password fail_silently formatter capped capped_max
      capped_size options)

/-- What one `emit` call did.  There is no constructor for an escaping
exception: `emit` wraps the insert in `except Exception`, and
`handleError` is the logging module's non-raising reporting path. -/
inductive EmitOutcome where
  | skipped
  | inserted (d : Doc)
  | swallowed (e : PyExc)
  | reportedError (e : PyExc)

/-- Model of `MongoHandler.emit` (dblog.py lines 132-140): guarded by
`self.collection is not None`; insert `self.format(record)`; on any
exception, swallow when `fail_silently` else `self.handleError(record)`. -/
def MongoHandler.emit (env : Env) (h : MongoHandler) (r : LogRecord) :
    EmitOutcome :=
  match h.collection with
  | none => .skipped
  | some c =>
      let d := h.formatter.formatRecord r
      match env.insertDoc c d with
      | .ok _ => .inserted d
      | .error e =>
          if h.fail_silently then .swallowed e else .reportedError e

/-- The externally visible steps `close` may take. -/
inductive CloseAction where
  | logout
  | closeConnection
deriving DecidableEq, Repr

/-- Model of `MongoHandler.close` (dblog.py lines 125-130): `self.db.logout()` when
authenticated (a `TypeError` if `self.db` is `None`), then
`self.connection.close()` when the connection attribute is not `None`. -/
def MongoHandler.close (h : MongoHandler) : Except PyExc (List CloseAction) :=
  match (if h.authenticated then
           match h.db with
           | none => Except.error PyExc.typeError
           | some _ => Except.ok [CloseAction.logout]
         else Except.ok []) with
  | .error e => .error e
  | .ok acts =>
      .ok (acts ++ if h.connection.isSome then [CloseAction.closeConnection]
                   else [])

/-! ### Dictionary lemmas -/

theorem keys_setKey (d : Doc) (k : String) (v : Value) :
    (Doc.keys (setKey d k v)).toFinset = insert k (Doc.keys d).toFinset := by
  induction d with
  | nil => simp [setKey, Doc.keys]
  | cons p rest ih =>
    obtain ⟨k', v'⟩ := p
    by_cases hk : k' = k
    · subst hk
      simp [setKey, Doc.keys]
    · have ih' : (List.map Prod.fst (setKey rest k v)).toFinset
          = insert k (List.map Prod.fst rest).toFinset := by
        simpa [Doc.keys] using ih
      simp only [setKey, if_neg hk, Doc.keys, List.map_cons, List.toFinset_cons]
      rw [ih']
      exact Finset.Insert.comm _ _ _

theorem lookupKey_setKey_same (d : Doc) (k : String) (v : Value) :
    Doc.lookupKey (setKey d k v) k = some v := by
  induction d with
  | nil => simp [setKey, Doc.lookupKey, List.find?]
  | cons p rest ih =>
    obtain ⟨k', v'⟩ := p
    by_cases hk : k' = k
    · subst hk
      simp [setKey, Doc.lookupKey, List.find?]
    · simp [setKey, hk, Doc.lookupKey, List.find?] at ih ⊢
      exact ih

theorem lookupKey_setKey_other (d : Doc) (k k' : String) (v : Value)
    (h : k' ≠ k) :
    Doc.lookupKey (setKey d k' v) k = Doc.lookupKey d k := by
  induction d with
  | nil => simp [setKey, Doc.lookupKey, List.find?, h]
  | cons p rest ih =>
    obtain ⟨k'', v''⟩ := p
    by_cases hk : k'' = k'
    · subst hk
      simp [setKey, Doc.lookupKey, List.find?, h]
    · by_cases hk2 : k'' = k
      · subst hk2
        simp [setKey, hk, Doc.lookupKey, List.find?]
      · simp [setKey, hk, hk2, Doc.lookupKey, List.find?] at ih ⊢
        exact ih

theorem lookupKey_none_of_not_mem (d : Doc) (k : String)
    (h : k ∉ Doc.keys d) : Doc.lookupKey d k = none := by
  induction d with
  | nil => simp [Doc.lookupKey, List.find?]
  | cons p rest ih =>
    obtain ⟨k', v'⟩ := p
    have h' : k ∉ (k' :: Doc.keys rest) := h
    have h1 : k ≠ k' := fun hh => h' (hh ▸ List.mem_cons_self _ _)
    have h2 : k ∉ Doc.keys rest := fun hh => h' (List.mem_cons_of_mem _ hh)
    simp [Doc.lookupKey, List.find?, Ne.symm h1] at ih ⊢
    exact ih h2

theorem keys_foldSet (f : String → Value) (ks : List String) (d : Doc) :
    (Doc.keys (ks.foldl (fun d k => setKey d k (f k)) d)).toFinset
      = (Doc.keys d).toFinset ∪ ks.toFinset := by
  induction ks generalizing d with
  | nil => simp
  | cons k ks ih =>
    simp only [List.foldl_cons, List.toFinset_cons]
    rw [ih, keys_setKey, Finset.insert_union, Finset.union_insert]

theorem lookupKey_foldSet_notMem (f : String → Value) (ks : List String)
    (d : Doc) (k : String) (h : k ∉ ks) :
    Doc.lookupKey (ks.foldl (fun d k => setKey d k (f k)) d) k
      = Doc.lookupKey d k := by
  induction ks generalizing d with
  | nil => simp
  | cons k' ks ih =>
    simp at h
    simp only [List.foldl_cons]
    rw [ih _ h.2, lookupKey_setKey_other _ _ _ _ (Ne.symm h.1)]

theorem lookupKey_foldSet_mem (f : String → Value) (ks : List String)
    (d : Doc) (k : String) (hnd : ks.Nodup) (h : k ∈ ks) :
    Doc.lookupKey (ks.foldl (fun d k => setKey d k (f k)) d) k
      = some (f k) := by
  revert hnd h
  induction ks generalizing d with
  | nil =>
    intro hnd h
    simp at h
  | cons k' ks ih =>
    intro hnd h
    simp only [List.foldl_cons]
    rcases List.mem_cons.mp h with hk | hk
    · subst hk
      rw [lookupKey_foldSet_notMem _ _ _ _ (List.nodup_cons.mp hnd).1,
        lookupKey_setKey_same]
    · exact ih _ (List.nodup_cons.mp hnd).2 hk

/-! ### Format-level helper lemmas -/

theorem standardDoc_keys (r : LogRecord) :
    Doc.keys (standardDoc r) = fixedDocKeys := rfl

theorem format_no_extras (r : LogRecord) (h : r.extras = []) :
    MongoFormatter.format r =
      match r.exc_info with
      | some ei => setKey (standardDoc r) "exception" (exceptionValue ei)
      | none => standardDoc r := by
  unfold MongoFormatter.format
  rw [if_neg]
  simp [LogRecord.dictKeys, h]

theorem contextual_extra_eq (r : LogRecord)
    (hnd : (r.extras.map Prod.fst).Nodup)
    (hdisj : ∀ k ∈ r.extras.map Prod.fst, k ∉ DEFAULT_PROPERTIES) :
    (r.dictKeys.filter (fun k => decide (k ∉ DEFAULT_PROPERTIES))).dedup
      = r.extras.map Prod.fst := by
  rw [LogRecord.dictKeys, List.filter_append]
  rw [show DEFAULT_PROPERTIES.filter (fun k => decide (k ∉ DEFAULT_PROPERTIES))
        = [] from by decide]
  rw [List.filter_eq_self.mpr (fun a ha => decide_eq_true (hdisj a ha))]
  rw [List.nil_append, List.dedup_eq_self.mpr hnd]

theorem format_with_extras (r : LogRecord)
    (hne : r.extras ≠ [])
    (hnd : (r.extras.map Prod.fst).Nodup)
    (hdisj : ∀ k ∈ r.extras.map Prod.fst, k ∉ DEFAULT_PROPERTIES) :
    MongoFormatter.format r =
      (r.extras.map Prod.fst).foldl
        (fun d k => setKey d k (r.dictValue k))
        (match r.exc_info with
         | some ei => setKey (standardDoc r) "exception" (exceptionValue ei)
         | none => standardDoc r) := by
  have hlen : DEFAULT_PROPERTIES.length ≠ r.dictKeys.length := by
    simp only [LogRecord.dictKeys, List.length_append, List.length_map]
    have : r.extras.length ≠ 0 := fun hh => hne (List.length_eq_zero.mp hh)
    omega
  have hmapne : r.extras.map Prod.fst ≠ [] := by
    simpa using hne
  unfold MongoFormatter.format
  rw [if_pos hlen, contextual_extra_eq r hnd hdisj, if_pos hmapne]

theorem find?_assoc (l : List (String × Value)) (k : String) (v : Value)
    (hnd : (l.map Prod.fst).Nodup) (hkv : (k, v) ∈ l) :
    l.find? (fun p => decide (p.1 = k)) = some (k, v) := by
  induction l with
  | nil => simp at hkv
  | cons p rest ih =>
    obtain ⟨k', v'⟩ := p
    rcases List.mem_cons.mp hkv with h | h
    · injection h with h1 h2
      subst h1
      subst h2
      simp [List.find?]
    · have hnd' : (k' :: rest.map Prod.fst).Nodup := hnd
      have hk : k' ≠ k := by
        intro hh
        subst hh
        exact (List.nodup_cons.mp hnd').1
          (List.mem_map.mpr ⟨(k', v), h, rfl⟩)
      simp only [List.find?, decide_eq_true_eq, hk, decide_False]
      exact ih (List.nodup_cons.mp hnd').2 h

theorem dictValue_of_mem (r : LogRecord) (k : String) (v : Value)
    (hnd : (r.extras.map Prod.fst).Nodup) (hkv : (k, v) ∈ r.extras) :
    r.dictValue k = v := by
  unfold LogRecord.dictValue
  rw [find?_assoc r.extras k v hnd hkv]
  rfl

theorem format_keys_toFinset (r : LogRecord)
    (hnd : (r.extras.map Prod.fst).Nodup)
    (hdisj : ∀ k ∈ r.extras.map Prod.fst, k ∉ DEFAULT_PROPERTIES) :
    (Doc.keys (MongoFormatter.format r)).toFinset
      = (fixedDocKeys.toFinset
          ∪ (if r.exc_info.isSome then {"exception"} else ∅))
        ∪ (r.extras.map Prod.fst).toFinset := by
  have base : ∀ _ : Unit,
      (Doc.keys (match r.exc_info with
        | some ei => setKey (standardDoc r) "exception" (exceptionValue ei)
        | none => standardDoc r)).toFinset
      = fixedDocKeys.toFinset
          ∪ (if r.exc_info.isSome then {"exception"} else ∅) := by
    intro _
    cases r.exc_info with
    | none => simp [standardDoc_keys]
    | some ei =>
      rw [keys_setKey, standardDoc_keys]
      simp [Finset.insert_eq, Finset.union_comm]
  by_cases hne : r.extras = []
  · rw [format_no_extras r hne, base (), hne]
    simp
  · rw [format_with_extras r hne hnd hdisj, keys_foldSet, base ()]

theorem excLine_data_ne (ei : ExcInfo) (h : ei.typeName ≠ "") :
    (excLine ei).data ≠ [] := by
  have hT : ei.typeName.data ≠ [] := fun hh => h (String.ext hh)
  unfold excLine
  by_cases hv : ei.valueStr = ""
  · simpa [hv] using hT
  · rw [if_neg hv]
    intro hh
    rw [String.data_append, String.data_append] at hh
    exact hT (List.append_eq_nil.mp (List.append_eq_nil.mp hh).1).1

theorem stripTrailingNewline_concat (l : List Char) :
    stripTrailingNewline ⟨l ++ ['\n']⟩ = ⟨l⟩ := by
  unfold stripTrailingNewline
  rw [show (String.mk (l ++ ['\n'])).data = l ++ ['\n'] from rfl]
  rw [List.getLast?_concat]
  simp

theorem formatException_ne_empty (ei : ExcInfo) (h : ei.typeName ≠ "") :
    formatException ei ≠ "" := by
  have hT : tracebackText ei
      = ⟨((if ei.tbFrames.isEmpty then ""
           else "Traceback (most recent call last):\n" ++ String.join ei.tbFrames)
          ++ excLine ei).data ++ ['\n']⟩ := by
    apply String.ext
    unfold tracebackText
    rw [String.data_append]
  unfold formatException
  rw [hT, stripTrailingNewline_concat]
  intro hEq
  have hdata : ((if ei.tbFrames.isEmpty then ""
      else "Traceback (most recent call last):\n" ++ String.join ei.tbFrames)
      ++ excLine ei).data = [] := congrArg String.data hEq
  rw [String.data_append] at hdata
  exact excLine_data_ne ei h (List.append_eq_nil.mp hdata).2

theorem exception_notin_contextual (r : LogRecord)
    (hext : "exception" ∉ r.extras.map Prod.fst) :
    "exception"
      ∉ (r.dictKeys.filter (fun k => decide (k ∉ DEFAULT_PROPERTIES))).dedup := by
  intro hmem
  have hmem' := (List.mem_filter.mp (List.mem_dedup.mp hmem)).1
  unfold LogRecord.dictKeys at hmem'
  rcases List.mem_append.mp hmem' with hD | hE
  · exact absurd hD (by decide)
  · exact hext hE

/-- A `LogRecord` shaped like the demo event of `dblog.py` (the docstring's
example document), with a chosen `exc_info` and extras bag. -/
def sampleRecord (exc : Option ExcInfo) (extras : List (String × Value)) :
    LogRecord :=
  { createdSec := 1468844382
    msecs := 617
    levelname := "INFO"
    thread := 140298168952640
    threadName := "MainThread"
    message := "Hello World"
    name := "bmclog"
    pathname := "/home/sophia/pyipmi/code/dblog.py"
    module := "module"
    funcName := "test_emit_exception"
    lineno := 157
    exc_info := exc
    extras := extras }

/-- The exception of the docstring example: `raise Exception('exc1')`. -/
def sampleExc : ExcInfo :=
  { typeName := "Exception"
    valueStr := "exc1"
    tbFrames := ["  File \"dblog.py\", line 36, in test_emit_exception\n"] }

/-- C2: for every log event (with the well-formed extras bag the logging
framework guarantees: distinct extension keys, none shadowing a standard
`LogRecord` attribute), the extension keys of the document produced by
`MongoFormatter.format` are exactly the event's attribute names minus the
baseline reference field set, each copied verbatim at top level; an event
with no extras (and no exception info) yields a document whose keys are
exactly the ten fixed baseline keys. -/
theorem c2_extension_fields (r : LogRecord)
    (hnd : (r.extras.map Prod.fst).Nodup)
    (hdisj : ∀ k ∈ r.extras.map Prod.fst, k ∉ DEFAULT_PROPERTIES) :
    (Doc.keys (MongoFormatter.format r)).toFinset
        = (fixedDocKeys.toFinset
            ∪ (if r.exc_info.isSome then {"exception"} else ∅))
          ∪ (r.extras.map Prod.fst).toFinset
    ∧ (r.extras.map Prod.fst).toFinset
        = r.dictKeys.toFinset \ DEFAULT_PROPERTIES.toFinset
    ∧ (∀ k v, (k, v) ∈ r.extras →
        Doc.lookupKey (MongoFormatter.format r) k = some v)
    ∧ (r.extras = [] → r.exc_info = none →
        Doc.keys (MongoFormatter.format r) = fixedDocKeys) := by
  refine ⟨format_keys_toFinset r hnd hdisj, ?_, ?_, ?_⟩
  · ext x
    simp only [LogRecord.dictKeys, List.toFinset_append, Finset.mem_sdiff,
      Finset.mem_union, List.mem_toFinset]
    constructor
    · intro hx
      exact ⟨Or.inr hx, hdisj x hx⟩
    · rintro ⟨hx | hx, hnotin⟩
      · exact absurd hx hnotin
      · exact hx
  · intro k v hkv
    have hne : r.extras ≠ [] := by
      intro hh
      rw [hh] at hkv
      simp at hkv
    rw [format_with_extras r hne hnd hdisj,
      lookupKey_foldSet_mem _ _ _ _ hnd (List.mem_map.mpr ⟨(k, v), hkv, rfl⟩),
      dictValue_of_mem r k v hnd hkv]
  · intro hext hexc
    rw [format_no_extras r hext, hexc]
    exact standardDoc_keys r

theorem c2_extension_fields_witness :
    (((sampleRecord none [("userId", Value.vInt 42)]).extras.map
        Prod.fst).Nodup
      ∧ ∀ k ∈ (sampleRecord none [("userId", Value.vInt 42)]).extras.map
          Prod.fst, k ∉ DEFAULT_PROPERTIES)
    ∧ ((Doc.keys (MongoFormatter.format
          (sampleRecord none [("userId", Value.vInt 42)]))).toFinset
        = (fixedDocKeys.toFinset
            ∪ (if (sampleRecord none
                [("userId", Value.vInt 42)]).exc_info.isSome
               then {"exception"} else ∅))
          ∪ ((sampleRecord none [("userId", Value.vInt 42)]).extras.map
              Prod.fst).toFinset
    ∧ ((sampleRecord none [("userId", Value.vInt 42)]).extras.map
          Prod.fst).toFinset
        = (sampleRecord none [("userId", Value.vInt 42)]).dictKeys.toFinset
            \ DEFAULT_PROPERTIES.toFinset
    ∧ (∀ k v, (k, v) ∈ (sampleRecord none [("userId", Value.vInt 42)]).extras →
        Doc.lookupKey (MongoFormatter.format
          (sampleRecord none [("userId", Value.vInt 42)])) k = some v)
    ∧ ((sampleRecord none [("userId", Value.vInt 42)]).extras = [] →
        (sampleRecord none [("userId", Value.vInt 42)]).exc_info = none →
        Doc.keys (MongoFormatter.format
          (sampleRecord none [("userId", Value.vInt 42)])) = fixedDocKeys)) :=
  ⟨⟨by decide, by decide⟩,
   c2_extension_fields (sampleRecord none [("userId", Value.vInt 42)])
     (by decide) (by decide)⟩

/-- C7: a log event without exception info yields a document with no
`exception` key at all (given no caller extra is itself named
`exception`, a collision dblog.py leaves as the caller's responsibility). -/
theorem c7_no_exception_key (r : LogRecord)
    (hexc : r.exc_info = none)
    (hext : "exception" ∉ r.extras.map Prod.fst) :
    Doc.lookupKey (MongoFormatter.format r) "exception" = none := by
  have hfmt : MongoFormatter.format r =
      if DEFAULT_PROPERTIES.length ≠ r.dictKeys.length then
        if (r.dictKeys.filter
              (fun k => decide (k ∉ DEFAULT_PROPERTIES))).dedup ≠ [] then
          ((r.dictKeys.filter
              (fun k => decide (k ∉ DEFAULT_PROPERTIES))).dedup).foldl
            (fun d k => setKey d k (r.dictValue k)) (standardDoc r)
        else standardDoc r
      else standardDoc r := by
    unfold MongoFormatter.format
    rw [hexc]
  rw [hfmt]
  by_cases hlen : DEFAULT_PROPERTIES.length ≠ r.dictKeys.length
  · rw [if_pos hlen]
    by_cases hcne : (r.dictKeys.filter
        (fun k => decide (k ∉ DEFAULT_PROPERTIES))).dedup ≠ []
    · rw [if_pos hcne,
        lookupKey_foldSet_notMem _ _ _ _ (exception_notin_contextual r hext)]
      rfl
    · rw [if_neg hcne]
      rfl
  · rw [if_neg hlen]
    rfl

theorem c7_no_exception_key_witness :
    ((sampleRecord none [("userId", Value.vInt 42)]).exc_info = none
      ∧ "exception" ∉ (sampleRecord none
          [("userId", Value.vInt 42)]).extras.map Prod.fst)
    ∧ Doc.lookupKey (MongoFormatter.format
        (sampleRecord none [("userId", Value.vInt 42)])) "exception" = none :=
  ⟨⟨rfl, by decide⟩,
   c7_no_exception_key (sampleRecord none [("userId", Value.vInt 42)])
     rfl (by decide)⟩

/-- C8: a log event with exception info yields a document whose `exception`
sub-mapping has `code` 0, `message` the string form of the exception value,
and a non-empty `stackTrace` holding the formatted traceback text (given a
non-empty exception type name, and no caller extra named `exception`). -/
theorem c8_exception_subdoc (r : LogRecord) (ei : ExcInfo)
    (hexc : r.exc_info = some ei)
    (htn : ei.typeName ≠ "")
    (hext : "exception" ∉ r.extras.map Prod.fst) :
    Doc.lookupKey (MongoFormatter.format r) "exception"
        = some (Value.vDoc [("message", Value.vStr ei.valueStr),
                            ("code", Value.vInt 0),
                            ("stackTrace", Value.vStr (formatException ei))])
    ∧ formatException ei ≠ "" := by
  refine ⟨?_, formatException_ne_empty ei htn⟩
  have hfmt : MongoFormatter.format r =
      if DEFAULT_PROPERTIES.length ≠ r.dictKeys.length then
        if (r.dictKeys.filter
              (fun k => decide (k ∉ DEFAULT_PROPERTIES))).dedup ≠ [] then
          ((r.dictKeys.filter
              (fun k => decide (k ∉ DEFAULT_PROPERTIES))).dedup).foldl
            (fun d k => setKey d k (r.dictValue k))
            (setKey (standardDoc r) "exception" (exceptionValue ei))
        else setKey (standardDoc r) "exception" (exceptionValue ei)
      else setKey (standardDoc r) "exception" (exceptionValue ei) := by
    unfold MongoFormatter.format
    rw [hexc]
  rw [hfmt]
  by_cases hlen : DEFAULT_PROPERTIES.length ≠ r.dictKeys.length
  · rw [if_pos hlen]
    by_cases hcne : (r.dictKeys.filter
        (fun k => decide (k ∉ DEFAULT_PROPERTIES))).dedup ≠ []
    · rw [if_pos hcne,
        lookupKey_foldSet_notMem _ _ _ _ (exception_notin_contextual r hext),
        lookupKey_setKey_same]
      rfl
    · rw [if_neg hcne, lookupKey_setKey_same]
      rfl
  · rw [if_neg hlen, lookupKey_setKey_same]
    rfl

theorem c8_exception_subdoc_witness :
    ((sampleRecord (some sampleExc) []).exc_info = some sampleExc
      ∧ sampleExc.typeName ≠ ""
      ∧ "exception" ∉ (sampleRecord (some sampleExc) []).extras.map Prod.fst)
    ∧ Doc.lookupKey (MongoFormatter.format (sampleRecord (some sampleExc) []))
          "exception"
        = some (Value.vDoc
            [("message", Value.vStr sampleExc.valueStr),
             ("code", Value.vInt 0),
             ("stackTrace", Value.vStr (formatException sampleExc))])
      ∧ formatException sampleExc ≠ "" :=
  ⟨⟨rfl, by decide, by decide⟩,
   c8_exception_subdoc (sampleRecord (some sampleExc) []) sampleExc
     rfl (by decide) (by decide)⟩

/-! ### Concrete driver environments -/

/-- An environment in which every driver call succeeds. -/
def envAllOk : Env :=
  { urlClient := fun _ => .ok ⟨0⟩
    hostClient := fun _ _ _ => .ok ⟨1⟩
    authenticate := fun _ _ _ => .ok true
    createCapped := fun db name mx sz => .ok ⟨db, name, some (mx, sz)⟩
    insertDoc := fun _ _ => .ok () }

/-- An environment in which the store is unreachable: both `MongoClient`
forms raise `PyMongoError`. -/
def envConnFail : Env :=
  { envAllOk with
    urlClient := fun _ => .error .pyMongoError
    hostClient := fun _ _ _ => .error .pyMongoError }

/-- An environment in which creating a capped collection raises
`OperationFailure` because the collection already exists. -/
def envCappedExists : Env :=
  { envAllOk with createCapped := fun _ _ _ _ => .error .operationFailure }

/-- An environment in which every insert is rejected by the store. -/
def envInsertFail : Env :=
  { envAllOk with insertDoc := fun _ _ => .error .pyMongoError }

/-- Unwrap a successful construction (used to name concrete handlers). -/
def extractOk (x : Except PyExc MongoHandler) (dflt : MongoHandler) :
    MongoHandler :=
  match x with
  | .ok h => h
  | .error _ => dflt

/-! ### Formatter preservation through `_connect` -/


theorem connectStep_formatter (env : Env) (h0 h1 : MongoHandler)
    (hok : MongoHandler.connectStep env h0 = .ok h1) :
    h1.formatter = h0.formatter := by
  unfold MongoHandler.connectStep at hok
  split at hok
  · rename_i u hurl
    cases hc : env.urlClient u with
    | ok c =>
      rw [hc] at hok
      simp only [Except.map, Except.ok.injEq] at hok
      rw [← hok]
    | error e =>
      rw [hc] at hok
      simp [Except.map] at hok
  · cases hc : env.hostClient h0.host h0.port h0.options with
    | ok c =>
      rw [hc] at hok
      simp only [Except.map, Except.ok.injEq] at hok
      rw [← hok]
    | error e =>
      rw [hc] at hok
      simp [Except.map] at hok

theorem connect_formatter (env : Env) (h0 h1 : MongoHandler)
    (hok : MongoHandler.connect env h0 = .ok h1) :
    h1.formatter = h0.formatter := by
  unfold MongoHandler.connect at hok
  split at hok
  · -- connectStep raised
    split at hok
    · split at hok
      · simp only [Except.ok.injEq] at hok
        rw [← hok]
      · exact absurd hok (by simp)
    · exact absurd hok (by simp)
  · -- connectStep returned h1'
    rename_i h1' hstep
    have hf1 : h1'.formatter = h0.formatter :=
      connectStep_formatter env h0 h1' hstep
    split at hok
    · exact absurd hok (by simp)
    · rename_i conn hconn
      simp only at hok
      split at hok
      · -- authStep raised
        exact absurd hok (by simp)
      · rename_i h3 hauth
        have hf3 : h3.formatter = h1'.formatter := by
          split at hauth
          · rename_i u p hu hp
            cases ha : env.authenticate ⟨conn, h1'.database_name⟩ u p with
            | ok b =>
              rw [ha] at hauth
              simp only [Except.map, Except.ok.injEq] at hauth
              rw [← hauth]
            | error e =>
              rw [ha] at hauth
              simp [Except.map] at hauth
          · simp only [Except.ok.injEq] at hauth
            rw [← hauth]
        split at hok
        · split at hok
          · simp only [Except.ok.injEq] at hok
            rw [← hok, hf3, hf1]
          · simp only [Except.ok.injEq] at hok
            rw [← hok, hf3, hf1]
          · exact absurd hok (by simp)
        · simp only [Except.ok.injEq] at hok
          rw [← hok, hf3, hf1]

/-! ### Concrete handlers for witnesses -/

def dfltHandler : MongoHandler :=
  MongoHandler.initState 0 none "localhost" 27017 "logs" "logs" none none
    false none false 1000 1000000 []

def handlerInsertFail : MongoHandler :=
  extractOk (MongoHandler.construct envInsertFail 0 none "localhost" 27017
    "logs" "logs" none none false none false 1000 1000000 []) dfltHandler

def handlerInert : MongoHandler :=
  extractOk (MongoHandler.construct envConnFail 0 none "localhost" 27017
    "logs" "logs" none none true none false 1000 1000000 []) dfltHandler

/-! ### The sink claims -/

/-- C1: contrary to the claim, supplying a URL does not make the URL client
the sink's active connection handle.  The `try` block stores the URL client
in the misspelled attribute `connnection` (dblog.py line 102), so
`self.connection` is still `None` and line 112 raises `TypeError` out of the
constructor: with a URL given and `MongoClient(url)` succeeding,
construction never yields a sink whose connection is the URL client. -/
theorem c1_url_connect_typeError (env : Env) (level : Int) (u : String)
    (host : String) (port : Nat) (dbn coll : String)
    (username password : Option String) (fs : Bool)
    (fmt : Option HandlerFormatter) (capped : Bool) (cm cs : Nat)
    (opts : Options) (c : Client)
    (hok : env.urlClient u = .ok c) :
    MongoHandler.construct env level (some u) host port dbn coll username
        password fs fmt capped cm cs opts = .error .typeError := by
  unfold MongoHandler.construct MongoHandler.connect MongoHandler.connectStep
  simp [MongoHandler.initState, hok, Except.map]

theorem c1_url_connect_typeError_witness :
    envAllOk.urlClient "mongodb://localhost:27017/" = .ok ⟨0⟩
    ∧ MongoHandler.construct envAllOk 0 (some "mongodb://localhost:27017/")
        "localhost" 27017 "logs" "logs" none none false none false 1000
        1000000 [] = .error .typeError :=
  ⟨rfl,
   c1_url_connect_typeError envAllOk 0 "mongodb://localhost:27017/"
     "localhost" 27017 "logs" "logs" none none false none false 1000
     1000000 [] ⟨0⟩ rfl⟩

/-- C3: with `fail_silently=True` and a connection failure (`PyMongoError`
from the `MongoClient` call), construction completes without raising,
returning the sink in its initial state (collection handle `None`), and
every subsequent `emit` — against any environment, for any record — is a
no-op that inserts nothing. -/
theorem c3_fail_silent_inert (env env2 : Env) (level : Int)
    (url : Option String) (host : String) (port : Nat) (dbn coll : String)
    (username password : Option String) (fmt : Option HandlerFormatter)
    (capped : Bool) (cm cs : Nat) (opts : Options) (e : PyExc)
    (r : LogRecord)
    (hfail : MongoHandler.connectStep env
        (MongoHandler.initState level url host port dbn coll username password
          true fmt capped cm cs opts) = .error e)
    (hpm : isPyMongoError e = true) :
    MongoHandler.construct env level url host port dbn coll username password
        true fmt capped cm cs opts
      = .ok (MongoHandler.initState level url host port dbn coll username
          password true fmt capped cm cs opts)
    ∧ (MongoHandler.initState level url host port dbn coll username password
        true fmt capped cm cs opts).collection = none
    ∧ MongoHandler.emit env2 (MongoHandler.initState level url host port dbn
        coll username password true fmt capped cm cs opts) r
      = .skipped := by
  refine ⟨?_, rfl, rfl⟩
  unfold MongoHandler.construct MongoHandler.connect
  rw [hfail]
  simp [hpm, MongoHandler.initState]

theorem c3_fail_silent_inert_witness :
    (MongoHandler.connectStep envConnFail (MongoHandler.initState 0 none
        "localhost" 27017 "logs" "logs" none none true none false 1000
        1000000 []) = .error .pyMongoError
      ∧ isPyMongoError .pyMongoError = true)
    ∧ MongoHandler.construct envConnFail 0 none "localhost" 27017 "logs"
        "logs" none none true none false 1000 1000000 []
      = .ok (MongoHandler.initState 0 none "localhost" 27017 "logs" "logs"
          none none true none false 1000 1000000 [])
    ∧ (MongoHandler.initState 0 none "localhost" 27017 "logs" "logs" none
        none true none false 1000 1000000 []).collection = none
    ∧ MongoHandler.emit envAllOk (MongoHandler.initState 0 none "localhost"
        27017 "logs" "logs" none none true none false 1000 1000000 [])
        (sampleRecord none [])
      = .skipped :=
  ⟨⟨rfl, rfl⟩,
   c3_fail_silent_inert envConnFail envAllOk 0 none "localhost" 27017 "logs"
     "logs" none none none false 1000 1000000 [] .pyMongoError
     (sampleRecord none []) rfl rfl⟩

/-- C4: with `fail_silently=False`, a failure of the `MongoClient` call
propagates out of `_connect` and hence out of the constructor: construction
fails observably with that exception. -/
theorem c4_fail_loud (env : Env) (level : Int) (url : Option String)
    (host : String) (port : Nat) (dbn coll : String)
    (username password : Option String) (fmt : Option HandlerFormatter)
    (capped : Bool) (cm cs : Nat) (opts : Options) (e : PyExc)
    (hfail : MongoHandler.connectStep env
        (MongoHandler.initState level url host port dbn coll username password
          false fmt capped cm cs opts) = .error e) :
    MongoHandler.construct env level url host port dbn coll username password
        false fmt capped cm cs opts = .error e := by
  unfold MongoHandler.construct MongoHandler.connect
  rw [hfail]
  cases hpm : isPyMongoError e <;> simp [hpm, MongoHandler.initState]

theorem c4_fail_loud_witness :
    MongoHandler.connectStep envConnFail (MongoHandler.initState 0 none
        "localhost" 27017 "logs" "logs" none none false none false 1000
        1000000 []) = .error .pyMongoError
    ∧ MongoHandler.construct envConnFail 0 none "localhost" 27017 "logs"
        "logs" none none false none false 1000 1000000 []
      = .error .pyMongoError :=
  ⟨rfl,
   c4_fail_loud envConnFail 0 none "localhost" 27017 "logs" "logs" none none
     none false 1000 1000000 [] .pyMongoError rfl⟩

/-- C5: in capped mode, when the capped `Collection(...)` creation raises
`OperationFailure` (the collection already exists), `_connect` does not
raise: it falls back to `db[collection_name]`, a plain open-by-name handle
with no capped parameters, and the sink ends with a non-null collection. -/
theorem c5_capped_exists_fallback (env : Env) (level : Int) (host : String)
    (port : Nat) (dbn coll : String) (fs : Bool)
    (fmt : Option HandlerFormatter) (cm cs : Nat) (opts : Options)
    (c : Client)
    (hconn : env.hostClient host port opts = .ok c)
    (hcap : env.createCapped ⟨c, dbn⟩ coll cm cs = .error .operationFailure) :
    MongoHandler.construct env level none host port dbn coll none none fs fmt
        true cm cs opts
      = .ok { MongoHandler.initState level none host port dbn coll none none
                fs fmt true cm cs opts with
              connection := some c
              db := some ⟨c, dbn⟩
              collection := some ⟨⟨c, dbn⟩, coll, none⟩ }
    ∧ (Coll.mk ⟨c, dbn⟩ coll none).cappedParams = none := by
  refine ⟨?_, rfl⟩
  unfold MongoHandler.construct MongoHandler.connect MongoHandler.connectStep
    MongoHandler.initState
  simp [hconn, hcap, Except.map]

theorem c5_capped_exists_fallback_witness :
    (envCappedExists.hostClient "localhost" 27017 [] = .ok ⟨1⟩
      ∧ envCappedExists.createCapped ⟨⟨1⟩, "logs"⟩ "logs" 1000 1000000
        = .error .operationFailure)
    ∧ MongoHandler.construct envCappedExists 0 none "localhost" 27017 "logs"
        "logs" none none false none true 1000 1000000 []
      = .ok { MongoHandler.initState 0 none "localhost" 27017 "logs" "logs"
                none none false none true 1000 1000000 [] with
              connection := some ⟨1⟩
              db := some ⟨⟨1⟩, "logs"⟩
              collection := some ⟨⟨⟨1⟩, "logs"⟩, "logs", none⟩ }
    ∧ (Coll.mk ⟨⟨1⟩, "logs"⟩ "logs" none).cappedParams = none :=
  ⟨⟨rfl, rfl⟩,
   c5_capped_exists_fallback envCappedExists 0 "localhost" 27017 "logs"
     "logs" false none 1000 1000000 [] ⟨1⟩ rfl rfl⟩

/-- C6: on a Ready sink (non-null collection), a failed insert is swallowed
when `fail_silently` is set and otherwise routed to `handleError`; in
neither case does `emit` raise (its outcome type has no raising case, as the
code catches all exceptions). -/
theorem c6_insert_failure (env : Env) (h : MongoHandler) (c : Coll)
    (r : LogRecord) (e : PyExc)
    (hcoll : h.collection = some c)
    (hins : env.insertDoc c (h.formatter.formatRecord r) = .error e) :
    MongoHandler.emit env h r
      = if h.fail_silently then .swallowed e else .reportedError e := by
  unfold MongoHandler.emit
  rw [hcoll]
  simp [hins]

theorem c6_insert_failure_witness :
    (handlerInsertFail.collection = some ⟨⟨⟨1⟩, "logs"⟩, "logs", none⟩
      ∧ envInsertFail.insertDoc ⟨⟨⟨1⟩, "logs"⟩, "logs", none⟩
          (handlerInsertFail.formatter.formatRecord (sampleRecord none []))
        = .error .pyMongoError)
    ∧ MongoHandler.emit envInsertFail handlerInsertFail (sampleRecord none [])
      = if handlerInsertFail.fail_silently then .swallowed .pyMongoError
        else .reportedError .pyMongoError :=
  ⟨⟨rfl, rfl⟩,
   c6_insert_failure envInsertFail handlerInsertFail
     ⟨⟨⟨1⟩, "logs"⟩, "logs", none⟩ (sampleRecord none []) .pyMongoError
     rfl rfl⟩

/-- C9: the `formatter` constructor argument is accepted but never used:
`__init__` installs a fresh `MongoFormatter()` (dblog.py line 90), any sink
a successful construction returns carries that `MongoFormatter`, and the
whole construction result is independent of the argument. -/
theorem c9_formatter_argument_ignored (env : Env) (level : Int)
    (url : Option String) (host : String) (port : Nat) (dbn coll : String)
    (username password : Option String) (fs : Bool)
    (f f' : Option HandlerFormatter) (capped : Bool) (cm cs : Nat)
    (opts : Options) (h : MongoHandler)
    (hok : MongoHandler.construct env level url host port dbn coll username
        password fs f capped cm cs opts = .ok h) :
    h.formatter = HandlerFormatter.mongoFormatter
    ∧ MongoHandler.construct env level url host port dbn coll username
        password fs f capped cm cs opts
      = MongoHandler.construct env level url host port dbn coll username
          password fs f' capped cm cs opts := by
  refine ⟨?_, rfl⟩
  exact connect_formatter env
    (MongoHandler.initState level url host port dbn coll username password fs
      f capped cm cs opts) h hok

theorem c9_formatter_argument_ignored_witness :
    MongoHandler.construct envInsertFail 0 none "localhost" 27017 "logs"
        "logs" none none false none false 1000 1000000 []
      = .ok handlerInsertFail
    ∧ handlerInsertFail.formatter = HandlerFormatter.mongoFormatter
    ∧ MongoHandler.construct envInsertFail 0 none "localhost" 27017 "logs"
        "logs" none none false none false 1000 1000000 []
      = MongoHandler.construct envInsertFail 0 none "localhost" 27017 "logs"
          "logs" none none false
          (some (HandlerFormatter.custom (fun _ => []))) false 1000
          1000000 [] :=
  ⟨rfl,
   c9_formatter_argument_ignored envInsertFail 0 none "localhost" 27017
     "logs" "logs" none none false none
     (some (HandlerFormatter.custom (fun _ => []))) false 1000 1000000 []
     handlerInsertFail rfl⟩

/-- C10: calling `close()` on a sink whose connection was never established
(`self.connection is None`, `self.authenticated` false — the state left by a
fail-silent connection failure) returns without raising and performs
neither a logout nor a connection close. -/
theorem c10_close_unconnected (h : MongoHandler)
    (hauth : h.authenticated = false) (hconn : h.connection = none) :
    MongoHandler.close h = .ok [] := by
  unfold MongoHandler.close
  simp [hauth, hconn]

theorem c10_close_unconnected_witness :
    (handlerInert.authenticated = false ∧ handlerInert.connection = none)
    ∧ MongoHandler.close handlerInert = .ok [] :=
  ⟨⟨rfl, rfl⟩, c10_close_unconnected handlerInert rfl rfl⟩
